import Mathlib

/-!
Shallow embedding of the Checklist App core (the React client in the
repository's main application file, plus the Express sync endpoint in
server.js).  Timestamps are modelled as integers counting milliseconds
since the Unix epoch; JavaScript `Date` calendar arithmetic via
`setDate(getDate() + n)` adds exact 24-hour days to the underlying
instant (in a DST-free zone), which we model as `+ n * dayMs`.
JavaScript `new Date(null)` is the epoch, modelled as `0`.
-/

namespace ChecklistApp

/-- Milliseconds in a day. -/
def dayMs : Int := 86400000

/-- An active or archived item record, with the field names of the source
(`repeatFrequency`, `customInterval`, `reminderRepeat`, `autoDismissAfter`,
`order`).  `completedAt` is absent (`none`) on active items and set when a
record is written to the archive. -/
structure Item where
  id : String
  checklistId : String
  title : String
  notes : String
  dueDate : Option Int
  repeatFrequency : String
  customInterval : Option Int
  reminderRepeat : Nat
  autoDismissAfter : Option Int
  completed : Bool
  completedAt : Option Int
  order : Nat
  createdAt : Int
  updatedAt : Int
deriving Repr, DecidableEq

/-- A checklist record.  `createChecklist` in the source writes no `order`
field at all, so the position is optional. -/
structure Checklist where
  id : String
  name : String
  color : String
  order : Option Nat
  createdAt : Int
deriving Repr, DecidableEq

/-- Kinds of notification the app emits: the immediate overdue one, the
due-time one, and the 5-minute repeats. -/
inductive NotifKind where
  | overdue
  | due
  | reminder
deriving Repr, DecidableEq

/-- A notification, tagged (as in the source) with the item id. -/
structure Notif where
  kind : NotifKind
  tag : String
deriving Repr, DecidableEq

/-- Association-list lookup, modelling indexing a JS object by key. -/
def alookup {α : Type} (l : List (String × α)) (k : String) : Option α :=
  (l.find? (fun p => p.fst = k)).map (fun p => p.snd)

/-- Association-list write, modelling `{...obj, [k]: v}` (replace the entry). -/
def aset {α : Type} (l : List (String × α)) (k : String) (v : α) :
    List (String × α) :=
  (k, v) :: l.filter (fun p => p.fst ≠ k)

/-- `calculateNextDueDate(currentDueDate, frequency, customInterval)` from
the source.  `new Date(currentDueDate)` coerces `null` to the epoch; the
`custom` case guards on JS truthiness of `customInterval`, so `null` and
`0` skip the addition and the current date is returned unchanged; any
other frequency string returns `null`. -/
def calculateNextDueDate (currentDueDate : Option Int) (frequency : String)
    (customInterval : Option Int) : Option Int :=
  let current : Int :=
    match currentDueDate with
    | none => 0
    | some t => t
  match frequency with
  | "daily" => some (current + dayMs)
  | "weekly" => some (current + 7 * dayMs)
  | "custom" =>
      match customInterval with
      | some n => if n = 0 then some current else some (current + n * dayMs)
      | none => some current
  | _ => none

/-- The repeat-notification loop of `setupReminder`: each 5-minute tick
checks `repeatCount >= item.reminderRepeat`, stopping if so, otherwise
emitting a repeat notification and incrementing `repeatCount`.  This is
the full trace of repeat notifications the interval timer emits when it
runs uninterrupted. -/
def repeatEmissions (tag : String) (repeatCount reminderRepeat : Nat) :
    List Notif :=
  if h : reminderRepeat ≤ repeatCount then []
  else Notif.mk NotifKind.reminder tag ::
    repeatEmissions tag (repeatCount + 1) reminderRepeat
termination_by reminderRepeat - repeatCount
decreasing_by omega

/-- The full notification trace of one `setupReminder(item)` invocation at
time `now`, assuming its timers later run to completion without
interference.  The past-due branch (`dueTime <= now`) shows one overdue
notification and returns; the future branch arms a due-time timer which,
on firing, emits the due notification and, only when
`item.reminderRepeat > 1`, starts the repeat interval with
`repeatCount = 1`. -/
def setupEmissions (item : Item) (now : Int) : List Notif :=
  match item.dueDate with
  | none => []
  | some due =>
    if due ≤ now then [Notif.mk NotifKind.overdue item.id]
    else
      Notif.mk NotifKind.due item.id ::
        (if 1 < item.reminderRepeat then
          repeatEmissions item.id 1 item.reminderRepeat
        else [])

/-- The client state the lifecycle functions mutate: the three React
collections plus the `reminderIntervals` map from item id to the timer
handle it registered.  `liveTimers` is the set (as a list) of timer
handles that have been armed and not cleared — a timer in `liveTimers`
will still fire; `clearInterval(t)` removes `t` from it.  `nextTimer`
models the browser's allocation of fresh (positive) timer handles. -/
structure AppState where
  checklists : List Checklist
  items : List Item
  archive : List Item
  reminderIntervals : List (String × Nat)
  liveTimers : List Nat
  nextTimer : Nat
deriving Repr, DecidableEq

/-- The synchronous timer effect of `setupReminder(item)` at time `now`.
The past-due branch shows a notification and returns without registering
anything; the future branch arms a fresh due-time timer and records it in
`reminderIntervals` via `setReminderIntervals(prev => ({...prev,
[item.id]: timerId}))` — overwriting the map entry but clearing no
previously armed timer. -/
def setupReminder (s : AppState) (item : Item) (now : Int) : AppState :=
  match item.dueDate with
  | none => s
  | some due =>
    if due ≤ now then s
    else
      { s with
        liveTimers := s.nextTimer :: s.liveTimers
        reminderIntervals := aset s.reminderIntervals item.id s.nextTimer
        nextTimer := s.nextTimer + 1 }

/-- The `clearInterval(reminderIntervals[itemId])` + map-entry removal
pattern shared by `toggleItemComplete` and `deleteItem`: when a timer is
registered for the id, it is cleared (removed from the live set) and the
registry entry deleted. -/
def clearReminder (s : AppState) (itemId : String) : AppState :=
  match alookup s.reminderIntervals itemId with
  | some t =>
      { s with
        liveTimers := s.liveTimers.filter (fun x => x ≠ t)
        reminderIntervals := s.reminderIntervals.filter (fun p => p.fst ≠ itemId) }
  | none => s

/-- JS `s || d` for strings: the empty string is falsy. -/
def jsOrStr (s d : String) : String := if s = "" then d else s

/-- JS `n || d` for numbers: `0` is falsy. -/
def jsOrNat (n d : Nat) : Nat := if n = 0 then d else n

/-- JS `x || null` for nullable numbers: both `null` and `0` give `null`. -/
def jsOrNull (x : Option Int) : Option Int :=
  match x with
  | some n => if n = 0 then none else some n
  | none => none

/-- The shape `NewItemModal.handleSubmit` passes to `onSave`: title and
notes strings, parsed due date, frequency string, and parsed numeric
fields. -/
structure ItemFormData where
  title : String
  notes : String
  dueDate : Option Int
  repeatFrequency : String
  customInterval : Option Int
  reminderRepeat : Nat
  autoDismissAfter : Option Int
deriving Repr, DecidableEq

/-- JS `String.prototype.trim()`: strip leading and trailing whitespace
(modelled over the character list). -/
def jsTrim (s : String) : String :=
  String.mk
    (((s.data.dropWhile Char.isWhitespace).reverse.dropWhile
      Char.isWhitespace).reverse)

/-- `NewItemModal.handleSubmit`: submits (returning the data handed to
`onSave`, with the title trimmed) only when `formData.title.trim()` is
truthy; otherwise nothing is submitted. -/
def handleSubmitItem (formData : ItemFormData) : Option ItemFormData :=
  if jsTrim formData.title = "" then none
  else some { formData with title := jsTrim formData.title }

/-- `createOrUpdateItem(itemData)` from the source.  `editingItem` is the
component state distinguishing edit from create; `selectedChecklist` the
target checklist id; `freshId` models `generateId()`.  Note: the function
performs no title validation, and on edit it arms a new reminder without
clearing the previously registered timer. -/
def createOrUpdateItem (s : AppState) (itemData : ItemFormData)
    (editingItem : Option Item) (selectedChecklist : String) (now : Int)
    (freshId : String) : AppState :=
  let checklistItems := s.items.filter (fun it => it.checklistId = selectedChecklist)
  let maxOrder : Nat :=
    match editingItem with
    | some e => e.order
    | none => (checklistItems.foldl (fun m it => max m it.order) 0) + 1
  let item : Item :=
    { id := match editingItem with | some e => e.id | none => freshId
      checklistId := selectedChecklist
      title := itemData.title
      notes := jsOrStr itemData.notes ""
      dueDate := itemData.dueDate
      repeatFrequency := jsOrStr itemData.repeatFrequency "none"
      customInterval := jsOrNull itemData.customInterval
      reminderRepeat := jsOrNat itemData.reminderRepeat 1
      autoDismissAfter := jsOrNull itemData.autoDismissAfter
      completed := match editingItem with | some e => e.completed | none => false
      completedAt := none
      order := maxOrder
      createdAt := match editingItem with | some e => e.createdAt | none => now
      updatedAt := now }
  let items' :=
    match editingItem with
    | some _ => s.items.map (fun i => if i.id = item.id then item else i)
    | none => s.items ++ [item]
  let s1 := { s with items := items' }
  match item.dueDate with
  | some _ => setupReminder s1 item now
  | none => s1

/-- `toggleItemComplete(itemId)` from the source, with `userConfirmed`
modelling the `confirm(...)` answer when the due date is in the future and
`freshId` the `generateId()` of the recurrence successor.  Archives the
item, clears its registered reminder, and — when the repeat rule yields a
next date — appends the cloned successor and arms its reminder. -/
def toggleItemComplete (s : AppState) (itemId : String) (now : Int)
    (userConfirmed : Bool) (freshId : String) : AppState :=
  match s.items.find? (fun i => i.id = itemId) with
  | none => s
  | some item =>
    let warnFuture : Bool :=
      !item.completed &&
        (match item.dueDate with
         | some d => decide (now < d)
         | none => false)
    if warnFuture && !userConfirmed then s
    else if item.completed then s
    else
      let completedItem := { item with completed := true, completedAt := some now }
      let s1 := { s with
        items := s.items.filter (fun i => i.id ≠ itemId)
        archive := s.archive ++ [completedItem] }
      let s2 := clearReminder s1 itemId
      if item.repeatFrequency ≠ "none" then
        match calculateNextDueDate item.dueDate item.repeatFrequency
            item.customInterval with
        | some nextDueDate =>
          let newItem := { item with
            id := freshId
            dueDate := some nextDueDate
            completed := false
            createdAt := now
            updatedAt := now }
          let s3 := { s2 with items := s2.items ++ [newItem] }
          setupReminder s3 newItem now
        | none => s2
      else s2

/-- `deleteItem(itemId)` from the source: removes the record and clears
the reminder registered for the id.  No position repair is performed. -/
def deleteItem (s : AppState) (itemId : String) : AppState :=
  clearReminder { s with items := s.items.filter (fun i => i.id ≠ itemId) } itemId

/-- `deleteChecklist(checklistId)` from the source, with `userConfirmed`
modelling the `confirm(...)` dialog.  The loop clears, for every active
item of the checklist, the timer registered in the `reminderIntervals`
snapshot; the state updates then drop every checklist/item/archive record
referencing the id and the registry entries of the deleted items. -/
def deleteChecklist (s : AppState) (checklistId : String)
    (userConfirmed : Bool) : AppState :=
  if !userConfirmed then s
  else
    let checklistItems := s.items.filter (fun it => it.checklistId = checklistId)
    { s with
      checklists := s.checklists.filter (fun c => c.id ≠ checklistId)
      items := s.items.filter (fun it => it.checklistId ≠ checklistId)
      archive := s.archive.filter (fun a => a.checklistId ≠ checklistId)
      reminderIntervals := s.reminderIntervals.filter
        (fun p => !(checklistItems.any (fun it => it.id = p.fst)))
      liveTimers := s.liveTimers.filter
        (fun t => !(checklistItems.any
          (fun it => alookup s.reminderIntervals it.id = some t))) }

/-- JS `array.splice(i, 1)` removal: delete the element at index `i`
(no-op past the end). -/
def eraseAt {α : Type} : List α → Nat → List α
  | [], _ => []
  | _ :: xs, 0 => xs
  | x :: xs, n + 1 => x :: eraseAt xs n

/-- JS `array.splice(i, 0, a)` insertion: insert `a` at index `i`, or at
the end when `i` is past the end. -/
def insertAt {α : Type} : List α → Nat → α → List α
  | xs, 0, a => a :: xs
  | [], _ + 1, a => [a]
  | x :: xs, n + 1, a => x :: insertAt xs n a

/-- The `newItems.map((item, index) => ({...item, order: index + 1,
updatedAt: ...}))` renumbering of `handleItemDrop`, started at `n = 1`. -/
def renumber (n : Nat) (now : Int) : List Item → List Item
  | [] => []
  | it :: rest =>
      { it with order := n, updatedAt := now } :: renumber (n + 1) now rest

/-- The same-checklist branch of `handleItemDrop` acting on the filtered
`checklistItems` list: splice the dragged item out at `sourceIndex`,
splice it back in at `targetIndex` (adjusted down by one when it was
before the removal point), then renumber orders to `1..count`. -/
def spliceReorder (l : List Item) (sourceIndex targetIndex : Nat)
    (now : Int) : List Item :=
  match l[sourceIndex]? with
  | none => l
  | some movedItem =>
    let withoutMoved := eraseAt l sourceIndex
    let insertPos :=
      if sourceIndex < targetIndex then targetIndex - 1 else targetIndex
    renumber 1 now (insertAt withoutMoved insertPos movedItem)

/-- A record stored by the sync endpoint: the saved payload together with
the `savedAt` stamp `POST /api/save` adds. -/
structure StoredRecord where
  payload : String
  savedAt : Int
deriving Repr, DecidableEq

/-- Status code and `success` flag of a sync-endpoint response. -/
structure ApiResult where
  status : Nat
  success : Bool
deriving Repr, DecidableEq

/-- One character of the id character class `[a-zA-Z0-9_-]`
(`Char.isAlphanum` is exactly ASCII letters and digits). -/
def isIdChar (c : Char) : Bool := c.isAlphanum || c = '_' || c = '-'

/-- `isValidId(id)` from server.js: `/^[a-zA-Z0-9_-]{3,50}$/.test(id)`,
i.e. between 3 and 50 characters, all from the class. -/
def isValidId (id : String) : Bool :=
  decide (3 ≤ id.length) && decide (id.length ≤ 50) && id.data.all isIdChar

/-- `POST /api/save` from server.js.  The body fields are nullable
(`!id || !data` rejects missing or falsy values); an invalid id is
rejected with 400 before anything is written; otherwise the payload plus
`savedAt` overwrites whatever file `DATA_DIR/id.json` held. -/
def postSave (store : List (String × StoredRecord)) (id? : Option String)
    (data? : Option String) (now : Int) :
    ApiResult × List (String × StoredRecord) :=
  match id?, data? with
  | some id, some data =>
    if id = "" ∨ data = "" then (ApiResult.mk 400 false, store)
    else if ¬ (isValidId id = true) then (ApiResult.mk 400 false, store)
    else (ApiResult.mk 200 true, aset store id (StoredRecord.mk data now))
  | _, _ => (ApiResult.mk 400 false, store)

/-- `GET /api/load/:id` from server.js: 400 on an invalid id, 404 when no
file exists for it, otherwise 200 with the stored record. -/
def getLoad (store : List (String × StoredRecord)) (id : String) :
    ApiResult × Option StoredRecord :=
  if ¬ (isValidId id = true) then (ApiResult.mk 400 false, none)
  else
    match alookup store id with
    | none => (ApiResult.mk 404 false, none)
    | some d => (ApiResult.mk 200 true, some d)

theorem repeatEmissions_length (tag : String) (c r : Nat) :
    (repeatEmissions tag c r).length = r - c := by
  by_cases h : r ≤ c
  · rw [repeatEmissions]
    simp [h]
  · rw [repeatEmissions]
    simp only [h, dite_false]
    rw [List.length_cons, repeatEmissions_length tag (c + 1) r]
    omega
termination_by r - c
decreasing_by omega

/-- Fixture: a past-due daily item with three reminder repeats, first in
checklist `c`. -/
def itemA : Item :=
  { id := "a"
    checklistId := "c"
    title := "A"
    notes := ""
    dueDate := some 0
    repeatFrequency := "daily"
    customInterval := none
    reminderRepeat := 3
    autoDismissAfter := none
    completed := false
    completedAt := none
    order := 1
    createdAt := 0
    updatedAt := 0 }

/-- Fixture: a second, undated item in the same checklist. -/
def itemB : Item :=
  { itemA with
    id := "b"
    title := "B"
    order := 2
    dueDate := none
    repeatFrequency := "none"
    reminderRepeat := 1 }

/-- Fixture: the same item as `itemA` but due in the future. -/
def itemFuture : Item := { itemA with dueDate := some 5000 }

/-- Fixture: the checklist owning the two items. -/
def listC : Checklist :=
  { id := "c", name := "List", color := "#4a9eff", order := none, createdAt := 0 }

/-- Fixture: a state with one checklist, two items, and a live timer `1`
registered for item `a`. -/
def baseState : AppState :=
  { checklists := [listC]
    items := [itemA, itemB]
    archive := []
    reminderIntervals := [("a", 1)]
    liveTimers := [1]
    nextTimer := 2 }

theorem setupReminder_items (s : AppState) (item : Item) (now : Int) :
    (setupReminder s item now).items = s.items := by
  unfold setupReminder
  split
  · rfl
  · split <;> rfl

theorem setupReminder_archive (s : AppState) (item : Item) (now : Int) :
    (setupReminder s item now).archive = s.archive := by
  unfold setupReminder
  split
  · rfl
  · split <;> rfl

theorem clearReminder_items (s : AppState) (itemId : String) :
    (clearReminder s itemId).items = s.items := by
  unfold clearReminder
  split <;> rfl

theorem clearReminder_archive (s : AppState) (itemId : String) :
    (clearReminder s itemId).archive = s.archive := by
  unfold clearReminder
  split <;> rfl

theorem alookup_aset {α : Type} (l : List (String × α)) (k : String) (v : α) :
    alookup (aset l k v) k = some v := by
  simp [alookup, aset]

theorem isValidId_ne_empty {id : String} (h : isValidId id = true) :
    id ≠ "" := by
  intro he
  subst he
  exact absurd h (by decide)

theorem renumber_map_order (now : Int) :
    ∀ (n : Nat) (l : List Item),
      (renumber n now l).map (fun i => i.order) = List.range' n l.length := by
  intro n l
  induction l generalizing n with
  | nil => rfl
  | cons x xs ih =>
      simp [renumber, List.range'_succ, ih]

theorem insertAt_length {α : Type} :
    ∀ (l : List α) (n : Nat) (a : α), (insertAt l n a).length = l.length + 1 := by
  intro l
  induction l with
  | nil => intro n a; cases n <;> rfl
  | cons x xs ih =>
      intro n a
      cases n with
      | zero => rfl
      | succ m => simp [insertAt, ih]

theorem eraseAt_length {α : Type} :
    ∀ (l : List α) (n : Nat), n < l.length → (eraseAt l n).length = l.length - 1 := by
  intro l
  induction l with
  | nil => intro n h; simp at h
  | cons x xs ih =>
      intro n h
      cases n with
      | zero => rfl
      | succ m =>
          simp only [eraseAt, List.length_cons]
          rw [ih m (by simpa using h)]
          simp at h
          omega

theorem foldl_max_range' :
    ∀ (k a acc : Nat),
      List.foldl max acc (List.range' a k) =
        if k = 0 then acc else max acc (a + k - 1) := by
  intro k
  induction k with
  | zero => intro a acc; rfl
  | succ m ih =>
      intro a acc
      rw [List.range'_succ, List.foldl_cons, ih (a + 1) (max acc a)]
      by_cases hm : m = 0
      · simp [hm]
      · simp only [hm, if_false, Nat.succ_ne_zero, if_neg]
        omega

theorem foldl_max_range'_one (k : Nat) :
    List.foldl max 0 (List.range' 1 k) = k := by
  rw [foldl_max_range']
  by_cases h : k = 0
  · simp [h]
  · simp only [h, if_false]
    omega

theorem toggleItemComplete_spec (s : AppState) (itemId : String) (now : Int)
    (freshId : String) (item : Item) (nd : Int)
    (hfind : s.items.find? (fun i => i.id = itemId) = some item)
    (hcomp : item.completed = false)
    (hfreq : item.repeatFrequency ≠ "none")
    (hcalc : calculateNextDueDate item.dueDate item.repeatFrequency
      item.customInterval = some nd) :
    (toggleItemComplete s itemId now true freshId).items
      = s.items.filter (fun i => i.id ≠ itemId) ++
        [{ item with id := freshId, dueDate := some nd, completed := false,
                     createdAt := now, updatedAt := now }] ∧
    (toggleItemComplete s itemId now true freshId).archive
      = s.archive ++ [{ item with completed := true, completedAt := some now }] := by
  unfold toggleItemComplete
  rw [hfind]
  simp only [Bool.not_true, Bool.and_false, Bool.false_eq_true, if_false, hcomp,
    if_neg (by simp : ¬ (false = true)), hfreq, if_pos hfreq, hcalc]
  constructor
  · rw [setupReminder_items]
    simp [clearReminder_items]
  · rw [setupReminder_archive]
    simp [clearReminder_archive]

/-- C1 (counterexample): `itemA` is past due at time 1000 with
`reminderRepeat = 3`, yet the scheduler's past-due entry path emits a
single overdue notification — not the 3 total (1 due + 2 repeats) the
claim requires — because `setupReminder` returns immediately after the
overdue notification without entering the repeat logic. -/
theorem C1_counterexample :
    (setupEmissions itemA 1000).length = 1 ∧
    (setupEmissions itemA 1000).length ≠ 3 ∧
    itemA.dueDate = some 0 ∧ itemA.reminderRepeat = 3 := by
  decide

/-- C1 (amended): when an item's due date is already past at processing
time, the past-due entry path of `setupReminder` emits exactly one
(overdue) notification and does not proceed to the repeat logic,
regardless of `reminderRepeat`; only an item processed before its due
time emits `reminderRepeat` notifications in total (1 due + repeats)
through the timer path before settling. -/
theorem C1_past_due_emits_once (item : Item) (now due : Int)
    (hdue : item.dueDate = some due) :
    (due ≤ now → setupEmissions item now = [Notif.mk NotifKind.overdue item.id]) ∧
    (now < due → 1 ≤ item.reminderRepeat →
      (setupEmissions item now).length = item.reminderRepeat) := by
  constructor
  · intro h
    simp [setupEmissions, hdue, h]
  · intro h hr
    have hnot : ¬ (due ≤ now) := by omega
    simp only [setupEmissions, hdue, hnot, if_false]
    by_cases h1 : 1 < item.reminderRepeat
    · simp [h1, repeatEmissions_length]
      omega
    · simp [h1]
      omega

/-- C1 (witness): the amended theorem applied to the past-due fixture and
to its future-due variant. -/
theorem C1_witness :
    setupEmissions itemA 1000 = [Notif.mk NotifKind.overdue itemA.id] ∧
    (setupEmissions itemFuture 1000).length = itemFuture.reminderRepeat := by
  refine ⟨(C1_past_due_emits_once itemA 1000 0 rfl).1 (by decide),
    (C1_past_due_emits_once itemFuture 1000 5000 rfl).2 (by decide) (by decide)⟩

/-- C4 (counterexample): with rule `custom` and a missing interval the
recurrence calculation returns the due date unchanged (`some 0`), not
`none`; a zero interval likewise returns the date unchanged, and a
negative interval is applied as a negative day offset — all contradicting
the claim that a non-positive-integer interval yields no next
occurrence. -/
theorem C4_counterexample :
    calculateNextDueDate (some 0) "custom" none = some 0 ∧
    calculateNextDueDate (some 0) "custom" (some 0) = some 0 ∧
    calculateNextDueDate (some 0) "custom" (some (-2)) = some (-172800000) ∧
    (some (0 : Int) ≠ (none : Option Int)) := by
  decide

/-- C4 (amended): `daily` adds one day and `weekly` seven to the due
instant; `custom(n)` adds `n` days for any truthy (nonzero) `n`,
including negative ones; a missing or zero custom interval returns the
due date unchanged (not none); a non-repeat frequency yields none. -/
theorem C4_custom_interval_behavior (D n : Int) (cI : Option Int)
    (hn : n ≠ 0) :
    calculateNextDueDate (some D) "daily" cI = some (D + dayMs) ∧
    calculateNextDueDate (some D) "weekly" cI = some (D + 7 * dayMs) ∧
    calculateNextDueDate (some D) "custom" (some n) = some (D + n * dayMs) ∧
    calculateNextDueDate (some D) "custom" none = some D ∧
    calculateNextDueDate (some D) "custom" (some 0) = some D ∧
    calculateNextDueDate (some D) "none" cI = none := by
  refine ⟨rfl, rfl, ?_, rfl, ?_, rfl⟩ <;> simp [calculateNextDueDate, hn]

/-- C4 (witness): the amended theorem applied at a concrete due date and
interval. -/
theorem C4_witness :
    calculateNextDueDate (some 5) "daily" none = some (5 + dayMs) ∧
    calculateNextDueDate (some 5) "custom" (some 3) = some (5 + 3 * dayMs) := by
  have h := C4_custom_interval_behavior 5 3 none (by decide)
  exact ⟨h.1, h.2.2.1⟩

/-- Fixture: form data with an empty title. -/
def blankForm : ItemFormData :=
  { title := ""
    notes := "n"
    dueDate := none
    repeatFrequency := "none"
    customInterval := none
    reminderRepeat := 1
    autoDismissAfter := none }

/-- C7 (counterexample): `createOrUpdateItem` performs no title
validation: invoked with an empty title it persists a new record (the
active collection grows from 2 to 3 items and now contains an
empty-titled record) instead of rejecting before any mutation. -/
theorem C7_counterexample :
    (createOrUpdateItem baseState blankForm none "c" 0 "x").items.length = 3 ∧
    (createOrUpdateItem baseState blankForm none "c" 0 "x").items ≠ baseState.items ∧
    ((createOrUpdateItem baseState blankForm none "c" 0 "x").items.map
      (fun i => i.title)).contains "" = true := by
  decide

/-- C7 (amended): the empty/whitespace-title rejection lives in the form
handler, not in `createOrUpdateItem`: `NewItemModal.handleSubmit` never
invokes the save callback when the trimmed title is empty, so no mutation
happens through the modal; `createOrUpdateItem` itself, called directly
with a blank title, persists the record. -/
theorem C7_blank_title_not_submitted (formData : ItemFormData)
    (h : jsTrim formData.title = "") :
    handleSubmitItem formData = none := by
  simp [handleSubmitItem, h]

/-- C7 (witness): the amended theorem applied to a whitespace-only
title. -/
theorem C7_witness :
    handleSubmitItem { blankForm with title := "  " } = none :=
  C7_blank_title_not_submitted { blankForm with title := "  " } (by decide)

/-- C8: both sync operations validate the identifier against
`^[a-zA-Z0-9_-]{3,50}$`: any non-matching identifier makes `POST
/api/save` answer 400 with `success = false` while persisting nothing,
and makes `GET /api/load/:id` answer 400 with `success = false`; a
matching identifier (with data present) is accepted by save and never
draws the 400 validation answer from load. -/
theorem C8_identifier_validation (store : List (String × StoredRecord))
    (id data : String) (now : Int) (hdata : data ≠ "") :
    (isValidId id = false →
      postSave store (some id) (some data) now = (ApiResult.mk 400 false, store) ∧
      getLoad store id = (ApiResult.mk 400 false, none)) ∧
    (isValidId id = true →
      (postSave store (some id) (some data) now).1 = ApiResult.mk 200 true ∧
      (getLoad store id).1.status ≠ 400) := by
  constructor
  · intro hinv
    constructor
    · unfold postSave
      by_cases hid : id = ""
      · simp [hid]
      · simp [hid, hdata, hinv]
    · unfold getLoad
      simp [hinv]
  · intro hv
    have hne : id ≠ "" := isValidId_ne_empty hv
    constructor
    · simp [postSave, hne, hdata, hv]
    · unfold getLoad
      simp only [hv, not_true, if_neg, if_false]
      cases alookup store id <;> simp

/-- C8 (witness): the theorem applied to a too-short identifier and to a
valid one. -/
theorem C8_witness :
    postSave [] (some "ab") (some "p") 0 = (ApiResult.mk 400 false, []) ∧
    (postSave [] (some "abc") (some "p") 0).1 = ApiResult.mk 200 true := by
  exact ⟨((C8_identifier_validation [] "ab" "p" 0 (by decide)).1 (by decide)).1,
    ((C8_identifier_validation [] "abc" "p" 0 (by decide)).2 (by decide)).1⟩

/-- C10: for a valid identifier, two successive saves under the same id
both succeed — the second silently overwriting the first, with no
ownership or permission check — and a subsequent load succeeds and
returns the second payload together with its `savedAt` timestamp. -/
theorem C10_save_overwrite_load (store : List (String × StoredRecord))
    (id p1 p2 : String) (t1 t2 : Int) (hid : isValidId id = true)
    (hp1 : p1 ≠ "") (hp2 : p2 ≠ "") :
    (postSave store (some id) (some p1) t1).1.success = true ∧
    (postSave ((postSave store (some id) (some p1) t1).2)
      (some id) (some p2) t2).1.success = true ∧
    getLoad ((postSave ((postSave store (some id) (some p1) t1).2)
      (some id) (some p2) t2).2) id
      = (ApiResult.mk 200 true, some (StoredRecord.mk p2 t2)) := by
  have hne : id ≠ "" := isValidId_ne_empty hid
  have hsave : ∀ (st : List (String × StoredRecord)) (p : String) (t : Int),
      p ≠ "" → postSave st (some id) (some p) t
        = (ApiResult.mk 200 true, aset st id (StoredRecord.mk p t)) := by
    intro st p t hp
    simp [postSave, hne, hp, hid]
  rw [hsave store p1 t1 hp1, hsave _ p2 t2 hp2]
  refine ⟨rfl, rfl, ?_⟩
  unfold getLoad
  simp [hid, alookup_aset]

/-- C10 (witness): the theorem applied to a concrete identifier and two
payloads. -/
theorem C10_witness :
    getLoad ((postSave ((postSave [] (some "abc") (some "p1") 5).2)
      (some "abc") (some "p2") 9).2) "abc"
      = (ApiResult.mk 200 true, some (StoredRecord.mk "p2" 9)) :=
  (C10_save_overwrite_load [] "abc" "p1" "p2" 5 9 (by decide) (by decide)
    (by decide)).2.2

/-- C3 (counterexample): completing the daily `itemA` (position 1) in a
checklist that also holds `itemB` at position 2 yields a successor (id
`n`) carrying the completed item's position 1 — the `{...item}` spread
keeps `order` — rather than an appended position at the end of the
checklist's sequence (which would have to exceed `itemB`'s 2). -/
theorem C3_counterexample :
    ((toggleItemComplete baseState "a" 100 true "n").items.map
      (fun i => (i.id, i.checklistId, i.order)))
      = [("b", "c", 2), ("n", "c", 1)] ∧
    ¬ ((2 : Nat) < 1) := by
  decide

/-- C3 (amended): completing an active item with `repeatRule = daily` and
`dueDate = D` produces exactly one new active item cloned from it with a
new id, `dueDate = D + 1 day`, `completed = false` and fresh
`createdAt`/`updatedAt`, but carrying the completed item's `position`
(not an appended one); the original is removed from the active collection
and appears in the archive with `dueDate = D`, `completed = true` and
`completedAt` set to the completion time. -/
theorem C3_daily_completion (s : AppState) (itemId : String) (now : Int)
    (freshId : String) (item : Item) (D : Int)
    (hfind : s.items.find? (fun i => i.id = itemId) = some item)
    (hcomp : item.completed = false)
    (hdue : item.dueDate = some D)
    (hfreq : item.repeatFrequency = "daily") :
    (toggleItemComplete s itemId now true freshId).items
      = s.items.filter (fun i => i.id ≠ itemId) ++
        [{ item with id := freshId, dueDate := some (D + dayMs),
                     completed := false, createdAt := now, updatedAt := now }] ∧
    (toggleItemComplete s itemId now true freshId).archive
      = s.archive ++ [{ item with completed := true, completedAt := some now }] := by
  have hfreq' : item.repeatFrequency ≠ "none" := by
    rw [hfreq]
    decide
  have hcalc : calculateNextDueDate item.dueDate item.repeatFrequency
      item.customInterval = some (D + dayMs) := by
    rw [hdue, hfreq]
    rfl
  exact toggleItemComplete_spec s itemId now freshId item (D + dayMs)
    hfind hcomp hfreq' hcalc

/-- C3 (witness): the amended theorem applied to the fixture state. -/
theorem C3_witness :
    (toggleItemComplete baseState "a" 100 true "n").items
      = baseState.items.filter (fun i => i.id ≠ "a") ++
        [{ itemA with id := "n", dueDate := some (0 + dayMs),
                      completed := false, createdAt := 100, updatedAt := 100 }] ∧
    (toggleItemComplete baseState "a" 100 true "n").archive
      = baseState.archive ++
        [{ itemA with completed := true, completedAt := some 100 }] :=
  C3_daily_completion baseState "a" 100 "n" itemA 0 (by decide) rfl rfl rfl

/-- C9: completing an active item whose repeat rule is any of the
non-`none` rules (`daily`, `weekly`, `custom`) but whose `dueDate` is
null still creates exactly one successor, whose due date is computed
from the Unix epoch — `new Date(null)` is coerced to
1970-01-01T00:00:00Z before the interval is added — rather than no
successor or a successor with a null due date: the epoch base `0`
receives + 1 day for `daily`, + 7 days for `weekly`, + `n` days for
`custom` with a truthy interval `n`, and stays the epoch itself for
`custom` with a null/zero interval. -/
theorem C9_null_due_date_epoch (s : AppState) (itemId : String) (now : Int)
    (freshId : String) (item : Item)
    (hfind : s.items.find? (fun i => i.id = itemId) = some item)
    (hcomp : item.completed = false)
    (hdue : item.dueDate = none)
    (hfreq : item.repeatFrequency = "daily" ∨ item.repeatFrequency = "weekly" ∨
      item.repeatFrequency = "custom") :
    (toggleItemComplete s itemId now true freshId).items
      = s.items.filter (fun i => i.id ≠ itemId) ++
        [{ item with
            id := freshId
            dueDate := calculateNextDueDate none item.repeatFrequency
              item.customInterval
            completed := false
            createdAt := now
            updatedAt := now }] ∧
    (item.repeatFrequency = "daily" →
      calculateNextDueDate none item.repeatFrequency item.customInterval
        = some (0 + dayMs)) ∧
    (item.repeatFrequency = "weekly" →
      calculateNextDueDate none item.repeatFrequency item.customInterval
        = some (0 + 7 * dayMs)) ∧
    (∀ n : Int, item.repeatFrequency = "custom" →
      item.customInterval = some n → n ≠ 0 →
      calculateNextDueDate none item.repeatFrequency item.customInterval
        = some (0 + n * dayMs)) ∧
    (item.repeatFrequency = "custom" →
      (item.customInterval = none ∨ item.customInterval = some 0) →
      calculateNextDueDate none item.repeatFrequency item.customInterval
        = some 0) := by
  have hfreq' : item.repeatFrequency ≠ "none" := by
    rcases hfreq with h | h | h <;> rw [h] <;> decide
  have hcalc : ∃ nd : Int, calculateNextDueDate none item.repeatFrequency
      item.customInterval = some nd := by
    rcases hfreq with h | h | h <;> rw [h]
    · exact ⟨0 + dayMs, rfl⟩
    · exact ⟨0 + 7 * dayMs, rfl⟩
    · cases hc : item.customInterval with
      | none => exact ⟨0, rfl⟩
      | some n =>
          by_cases hn : n = 0
          · subst hn
            exact ⟨0, by simp [calculateNextDueDate]⟩
          · exact ⟨0 + n * dayMs, by simp [calculateNextDueDate, hn]⟩
  obtain ⟨nd, hnd⟩ := hcalc
  have hnd' : calculateNextDueDate item.dueDate item.repeatFrequency
      item.customInterval = some nd := by
    rw [hdue]
    exact hnd
  refine ⟨?_, ?_, ?_, ?_, ?_⟩
  · rw [hnd]
    exact (toggleItemComplete_spec s itemId now freshId item nd
      hfind hcomp hfreq' hnd').1
  · intro h
    rw [h]
    rfl
  · intro h
    rw [h]
    rfl
  · intro n h hc hn
    rw [h, hc]
    simp [calculateNextDueDate, hn]
  · intro h hc
    rcases hc with hc | hc <;> rw [h, hc] <;> rfl

/-- Fixture: `itemA` with a null due date and a `custom(5)` repeat
rule. -/
def itemCustomNull : Item :=
  { itemA with
    dueDate := none
    repeatFrequency := "custom"
    customInterval := some 5 }

/-- Fixture: `baseState` with `itemCustomNull` in place of `itemA`. -/
def customNullState : AppState :=
  { baseState with items := [itemCustomNull, itemB] }

/-- C9 (witness): the theorem applied to a fixture whose first item has a
null due date and a custom 5-day repeat rule: the successor's due date is
the epoch plus five days. -/
theorem C9_witness :
    (toggleItemComplete customNullState "a" 100 true "n").items
      = customNullState.items.filter (fun i => i.id ≠ "a") ++
        [{ itemCustomNull with
            id := "n"
            dueDate := calculateNextDueDate none itemCustomNull.repeatFrequency
              itemCustomNull.customInterval
            completed := false
            createdAt := 100
            updatedAt := 100 }] ∧
    calculateNextDueDate none itemCustomNull.repeatFrequency
        itemCustomNull.customInterval = some (0 + 5 * dayMs) := by
  have h := C9_null_due_date_epoch customNullState "a" 100 "n" itemCustomNull
    (by decide) rfl rfl (Or.inr (Or.inr rfl))
  exact ⟨h.1, h.2.2.2.1 5 rfl rfl (by decide)⟩

theorem setupReminder_liveTimers (s : AppState) (item : Item) (now : Int) :
    (setupReminder s item now).liveTimers = s.liveTimers ∨
    (setupReminder s item now).liveTimers = s.nextTimer :: s.liveTimers := by
  unfold setupReminder
  split
  · exact Or.inl rfl
  · split
    · exact Or.inl rfl
    · exact Or.inr rfl

theorem toggleItemComplete_liveTimers (s : AppState) (itemId : String)
    (now : Int) (freshId : String) (item : Item) (t : Nat)
    (hfind : s.items.find? (fun i => i.id = itemId) = some item)
    (hcomp : item.completed = false)
    (hreg : alookup s.reminderIntervals itemId = some t) :
    (toggleItemComplete s itemId now true freshId).liveTimers
        = s.liveTimers.filter (fun x => x ≠ t) ∨
    (toggleItemComplete s itemId now true freshId).liveTimers
        = s.nextTimer :: s.liveTimers.filter (fun x => x ≠ t) := by
  unfold toggleItemComplete
  rw [hfind]
  simp only [Bool.not_true, Bool.and_false, Bool.false_eq_true, if_false, hcomp,
    if_neg (by simp : ¬ (false = true))]
  simp only [clearReminder, hreg]
  split
  · split
    · rcases setupReminder_liveTimers _ _ now with h | h <;> rw [h]
      · exact Or.inl rfl
      · exact Or.inr rfl
    · exact Or.inl rfl
  · exact Or.inl rfl

/-- Fixture: the form data of an edit that keeps item `a`'s future due
date. -/
def editForm : ItemFormData :=
  { title := "A2"
    notes := ""
    dueDate := some 5000
    repeatFrequency := "none"
    customInterval := none
    reminderRepeat := 1
    autoDismissAfter := none }

/-- C5 (counterexample): in `baseState` item `a` has live timer 1
registered; editing it through `createOrUpdateItem` (due date 5000, still
in the future at time 0) arms a replacement timer 2 and overwrites the
registry entry, but timer 1 is still live afterwards — the edit cancelled
nothing, so the stale timer will fire for the pre-edit version of the
item. -/
theorem C5_counterexample :
    alookup baseState.reminderIntervals "a" = some 1 ∧
    1 ∈ (createOrUpdateItem baseState editForm (some itemA) "c" 0 "x").liveTimers ∧
    alookup (createOrUpdateItem baseState editForm (some itemA) "c" 0 "x").reminderIntervals
      "a" = some 2 := by
  decide

/-- C5 (amended): completing or deleting an item does cancel the timer
registered for its id — after `deleteItem`, and after completing a
not-yet-completed item via `toggleItemComplete` (whose fresh successor
timer cannot collide with the old handle), the registered timer is no
longer live.  Editing, by contrast, cancels nothing: `createOrUpdateItem`
arms a replacement timer while the previously registered one stays live
(see the counterexample). -/
theorem C5_complete_delete_cancel (s : AppState) (itemId : String) (t : Nat)
    (now : Int) (freshId : String) (item : Item)
    (hreg : alookup s.reminderIntervals itemId = some t)
    (hfind : s.items.find? (fun i => i.id = itemId) = some item)
    (hcomp : item.completed = false)
    (hfresh : t < s.nextTimer) :
    t ∉ (deleteItem s itemId).liveTimers ∧
    t ∉ (toggleItemComplete s itemId now true freshId).liveTimers := by
  constructor
  · simp only [deleteItem, clearReminder, hreg]
    simp
  · rcases toggleItemComplete_liveTimers s itemId now freshId item t
      hfind hcomp hreg with h | h <;> rw [h]
    · simp
    · intro hmem
      rcases List.mem_cons.mp hmem with h1 | h1
      · omega
      · simp at h1

/-- C5 (witness): the amended theorem applied to the fixture state. -/
theorem C5_witness :
    1 ∉ (deleteItem baseState "a").liveTimers ∧
    1 ∉ (toggleItemComplete baseState "a" 100 true "n").liveTimers :=
  C5_complete_delete_cancel baseState "a" 1 100 "n" itemA rfl (by decide)
    rfl (by decide)

/-- C6: `deleteChecklist` (confirmed) cascades: afterwards no checklist,
active-item or archived-item record referencing the deleted id remains in
any collection, records of other checklists are untouched (the three
collections are exactly filtered by the id), and the timer registered for
every active item of the deleted checklist has been cleared, so no
notification for those items fires afterwards. -/
theorem C6_deleteChecklist_cascade (s : AppState) (cid : String) :
    (deleteChecklist s cid true).checklists
      = s.checklists.filter (fun c => c.id ≠ cid) ∧
    (deleteChecklist s cid true).items
      = s.items.filter (fun it => it.checklistId ≠ cid) ∧
    (deleteChecklist s cid true).archive
      = s.archive.filter (fun a => a.checklistId ≠ cid) ∧
    (∀ item ∈ s.items, item.checklistId = cid →
      ∀ t, alookup s.reminderIntervals item.id = some t →
        t ∉ (deleteChecklist s cid true).liveTimers) := by
  refine ⟨rfl, rfl, rfl, ?_⟩
  intro item hmem hcid t hlook hmem'
  simp only [deleteChecklist, Bool.not_true, Bool.false_eq_true, if_false] at hmem'
  rw [List.mem_filter] at hmem'
  have hany : (s.items.filter (fun it => it.checklistId = cid)).any
      (fun it => alookup s.reminderIntervals it.id = some t) = true := by
    rw [List.any_eq_true]
    refine ⟨item, ?_, by simp [hlook]⟩
    rw [List.mem_filter]
    exact ⟨hmem, by simp [hcid]⟩
  rw [hany] at hmem'
  simp at hmem'

/-- C6 (witness): the theorem applied to the fixture state, whose
checklist `c` owns items `a` (with live timer 1) and `b`. -/
theorem C6_witness :
    (deleteChecklist baseState "c" true).items
      = baseState.items.filter (fun it => it.checklistId ≠ "c") ∧
    1 ∉ (deleteChecklist baseState "c" true).liveTimers := by
  have h := C6_deleteChecklist_cascade baseState "c"
  exact ⟨h.2.1, h.2.2.2 itemA (by decide) rfl 1 rfl⟩

theorem createOrUpdateItem_append_dense (s : AppState) (fd : ItemFormData)
    (cid : String) (now : Int) (fid : String)
    (hdense : (s.items.filter (fun it => it.checklistId = cid)).map
        (fun i => i.order)
      = List.range' 1 ((s.items.filter (fun it => it.checklistId = cid)).length)) :
    ((createOrUpdateItem s fd none cid now fid).items.filter
        (fun it => it.checklistId = cid)).map (fun i => i.order)
      = List.range' 1 (((createOrUpdateItem s fd none cid now fid).items.filter
        (fun it => it.checklistId = cid)).length) := by
  have hfold : List.foldl (fun m it => max m it.order) 0
      (s.items.filter (fun it => it.checklistId = cid))
      = (s.items.filter (fun it => it.checklistId = cid)).length := by
    have h2 := List.foldl_map (fun i : Item => i.order)
      (fun (m o : Nat) => max m o)
      (s.items.filter (fun it => it.checklistId = cid)) 0
    simp only at h2
    rw [← h2, hdense, foldl_max_range'_one]
  unfold createOrUpdateItem
  simp only []
  split
  · rw [setupReminder_items]
    rw [List.filter_append, List.map_append, List.length_append, hdense]
    simp only [List.filter_cons, List.filter_nil]
    rw [if_pos (by simp)]
    simp only [List.map_cons, List.map_nil, List.length_cons, List.length_nil]
    rw [hfold]
    generalize ((s.items.filter (fun it => it.checklistId = cid)).length) = k
    simp only [Nat.zero_add]
    rw [List.range'_1_concat, Nat.add_comm 1 k]
  · rw [List.filter_append, List.map_append, List.length_append, hdense]
    simp only [List.filter_cons, List.filter_nil]
    rw [if_pos (by simp)]
    simp only [List.map_cons, List.map_nil, List.length_cons, List.length_nil]
    rw [hfold]
    generalize ((s.items.filter (fun it => it.checklistId = cid)).length) = k
    simp only [Nat.zero_add]
    rw [List.range'_1_concat, Nat.add_comm 1 k]

/-- C2 (counterexample): in `baseState` checklist `c` holds items at
positions 1 and 2; after `deleteItem` of the first, the remaining item's
position is 2 — the committed delete leaves the set of positions `{2}`,
not the dense `{1}` the claim requires, because `deleteItem` performs no
renumbering. -/
theorem C2_counterexample :
    ((deleteItem baseState "a").items.map (fun i => i.order)) = [2] ∧
    (deleteItem baseState "a").items.length = 1 ∧
    ((2 : Nat) :: []) ≠ (1 : Nat) :: [] := by
  decide

/-- C2 (amended): density is established per operation, not maintained
globally: the same-checklist reorder of `handleItemDrop` rewrites the
checklist's records to positions exactly `1..count`, and insert-at-end
(`createOrUpdateItem` create) extends an already dense checklist to
`1..count+1`; but `deleteItem` and the cross-checklist move perform no
renumbering, so a deletion leaves a gap (see the counterexample), and
`createChecklist` assigns checklists no position at all. -/
theorem C2_reorder_dense (l : List Item) (si ti : Nat) (now : Int)
    (h : si < l.length) :
    ((spliceReorder l si ti now).map (fun i => i.order)
        = List.range' 1 l.length) ∧
    (∀ (s : AppState) (fd : ItemFormData) (cid : String) (now2 : Int)
        (fid : String),
      (s.items.filter (fun it => it.checklistId = cid)).map (fun i => i.order)
        = List.range' 1 ((s.items.filter (fun it => it.checklistId = cid)).length) →
      ((createOrUpdateItem s fd none cid now2 fid).items.filter
          (fun it => it.checklistId = cid)).map (fun i => i.order)
        = List.range' 1 (((createOrUpdateItem s fd none cid now2 fid).items.filter
          (fun it => it.checklistId = cid)).length)) := by
  constructor
  · have hget : l[si]? = some l[si] := List.getElem?_eq_getElem h
    unfold spliceReorder
    rw [hget]
    simp only []
    rw [renumber_map_order]
    congr 1
    rw [insertAt_length, eraseAt_length l si h]
    omega
  · intro s fd cid now2 fid hdense
    exact createOrUpdateItem_append_dense s fd cid now2 fid hdense

/-- C2 (witness): the amended theorem applied to the two-item fixture:
moving the second item to the front renumbers to `[1, 2]`, and appending
a third item to the dense checklist `c` of `baseState` yields positions
`1..3`. -/
theorem C2_witness :
    ((spliceReorder [itemA, itemB] 1 0 50).map (fun i => i.order)
        = List.range' 1 ([itemA, itemB] : List Item).length) ∧
    ((createOrUpdateItem baseState editForm none "c" 5 "x").items.filter
        (fun it => it.checklistId = "c")).map (fun i => i.order)
      = List.range' 1 (((createOrUpdateItem baseState editForm none "c" 5 "x").items.filter
        (fun it => it.checklistId = "c")).length) := by
  have h := C2_reorder_dense [itemA, itemB] 1 0 50 (by decide)
  exact ⟨h.1, h.2 baseState editForm "c" 5 "x" (by decide)⟩

end ChecklistApp
